import Mathlib

/-!
Verification of the origin-takehome-interview session dashboard.

This file gives a shallow embedding of the parts of the repository that carry
the specified invariants: the server route handlers (GET and POST on
/api/sessions, PATCH on /api/sessions/[id], in their enhanced form carrying
the referential checks, the positive-id guard and the idempotent no-op
branch) and the client reconciliation logic (SessionTable.handleMarkCompleted
together with the Home component handlers handleSessionUpdate,
handleSessionUpdateError and fetchSessions).

Machine conventions: timestamps are epoch milliseconds as Int; JSON bodies
are modelled structurally (a field is an Option of a JSON value shape);
request.json() throwing on a malformed body is an Except.error input; the
zod schemas are modelled as functions computing the issue list a ZodError
would carry.
-/

namespace Origin

/-- Session status: the closed two-value enumeration used by the sessions
table and by updateSessionSchema. -/
inductive Status where
  | Scheduled
  | Completed
deriving DecidableEq

/-- Row of the therapists table (serial id, name NOT NULL, nullable specialty). -/
structure Therapist where
  id : Nat
  name : String
  specialty : Option String
deriving DecidableEq

/-- Row of the patients table (serial id, name NOT NULL, nullable dob). -/
structure Patient where
  id : Nat
  name : String
  dob : Option String
deriving DecidableEq

/-- Row of the sessions table as declared in the drizzle schema: serial id,
integer therapist_id and patient_id (both NOT NULL, with no foreign-key
constraint declared), timestamp date, text status. -/
structure Session where
  id : Nat
  therapist_id : Int
  patient_id : Int
  date : Int
  status : Status
deriving DecidableEq

/-- Projection returned by GET /api/sessions: a session row joined (left
outer) with the referenced therapist name and patient name; a missing
referenced row leaves the name column NULL, modelled as none. -/
structure SessionWithDetails where
  id : Nat
  date : Int
  status : Status
  therapist_id : Int
  patient_id : Int
  therapist_name : Option String
  patient_name : Option String
deriving DecidableEq

/-- Server-side store: the three tables plus the serial sequence value for
sessions.id (fresh ids are assigned from it and it never decreases, so ids
are never reused). -/
structure DB where
  therapists : List Therapist
  patients : List Patient
  sessions : List Session
  nextSessionId : Nat
deriving DecidableEq

/-! JavaScript parseInt, as used on the PATCH path parameter. -/

/-- Numeric value of a decimal digit character. -/
def digitVal (c : Char) : Nat := c.toNat - 48

/-- Value of a run of decimal digit characters. -/
def decDigitsVal (cs : List Char) : Nat := cs.foldl (fun a c => a * 10 + digitVal c) 0

/-- Whether a character is a hexadecimal digit. -/
def isHexDigitChar (c : Char) : Bool :=
  c.isDigit || ('a' ≤ c && c ≤ 'f') || ('A' ≤ c && c ≤ 'F')

/-- Numeric value of a hexadecimal digit character. -/
def hexDigitVal (c : Char) : Nat :=
  if c.isDigit then c.toNat - 48
  else if 'a' ≤ c && c ≤ 'f' then c.toNat - 87
  else c.toNat - 55

/-- Value of a run of hexadecimal digit characters. -/
def hexDigitsVal (cs : List Char) : Nat := cs.foldl (fun a c => a * 16 + hexDigitVal c) 0

/-- Magnitude part of JavaScript parseInt with no radix argument: after the
optional sign, a 0x or 0X prefix switches to base 16; otherwise the leading
run of decimal digits is taken and the rest of the string is ignored; no
digit at all means NaN, modelled as none. -/
def parseIntMag (cs : List Char) : Option Nat :=
  match cs with
  | '0' :: c :: rest =>
    if c = 'x' || c = 'X' then
      let ds := rest.takeWhile isHexDigitChar
      if ds.isEmpty then none else some (hexDigitsVal ds)
    else
      let ds := (('0' :: c :: rest).takeWhile Char.isDigit)
      if ds.isEmpty then none else some (decDigitsVal ds)
  | _ =>
    let ds := cs.takeWhile Char.isDigit
    if ds.isEmpty then none else some (decDigitsVal ds)

/-- Model of JavaScript parseInt(s) with no radix argument: skip leading
whitespace, read an optional sign, then the magnitude; none models NaN. -/
def parseIntJS (s : String) : Option Int :=
  let cs := s.data.dropWhile Char.isWhitespace
  match cs with
  | '-' :: rest => (parseIntMag rest).map (fun n => -(n : Int))
  | '+' :: rest => (parseIntMag rest).map (fun n => (n : Int))
  | _ => (parseIntMag cs).map (fun n => (n : Int))

/-! The zod request schemas. -/

/-- JSON field value, distinguished only as far as the zod checks used here
distinguish shapes: an integral number, a non-integral number, a string, or
anything else (bool, null, object, array). -/
inductive JVal where
  | jint (n : Int)
  | jnum
  | jstr (s : String)
  | jother
deriving DecidableEq

/-- Issues contributed by z.number().int().positive() applied to one body
field (messages abbreviate the zod texts; the field name is what the
handlers put into details via err.path.join). -/
def zodNumberIntPositive (field : String) (v : Option JVal) : List (String × String) :=
  match v with
  | none => [(field, "Required")]
  | some (JVal.jint n) =>
    if 0 < n then [] else [(field, "Number must be greater than 0")]
  | some JVal.jnum => [(field, "Expected integer, received float")]
  | some _ => [(field, "Expected number")]

/-- Format check of zod z.string().datetime(): a full ISO-8601 UTC instant,
four-digit year, with optional fractional seconds and a terminal Z. -/
def isZodDatetime (s : String) : Bool :=
  match s.data with
  | y1 :: y2 :: y3 :: y4 :: '-' :: m1 :: m2 :: '-' :: d1 :: d2 :: 'T' ::
      h1 :: h2 :: ':' :: n1 :: n2 :: ':' :: p1 :: p2 :: rest =>
    ([y1, y2, y3, y4, m1, m2, d1, d2, h1, h2, n1, n2, p1, p2].all Char.isDigit) &&
    (match rest with
     | ['Z'] => true
     | '.' :: fr =>
       !fr.dropLast.isEmpty && fr.dropLast.all Char.isDigit && fr.getLast? == some 'Z'
     | _ => false)
  | _ => false

/-- Issues contributed by z.string().datetime() applied to one body field. -/
def zodDatetime (field : String) (v : Option JVal) : List (String × String) :=
  match v with
  | none => [(field, "Required")]
  | some (JVal.jstr s) =>
    if isZodDatetime s then [] else [(field, "Invalid datetime")]
  | some _ => [(field, "Expected string")]

/-- Body of a create-session request as received by request.json(): the three
schema fields plus a status key a client may also send (createSessionSchema
declares no status field, so zod strips it). -/
structure CreateBodyJson where
  therapist_id : Option JVal
  patient_id : Option JVal
  date : Option JVal
  status : Option JVal
deriving DecidableEq

/-- Output of createSessionSchema.parse on success. -/
structure CreateValidated where
  therapist_id : Int
  patient_id : Int
  date : String
deriving DecidableEq

/-- Issue list of createSessionSchema over a body: one sublist per declared
field, in declaration order; the undeclared status key contributes nothing. -/
def createSessionIssues (b : CreateBodyJson) : List (String × String) :=
  zodNumberIntPositive "therapist_id" b.therapist_id ++
  zodNumberIntPositive "patient_id" b.patient_id ++
  zodDatetime "date" b.date

/-- createSessionSchema.parse: all issues are collected into one ZodError
(the error branch); on success the three typed fields are returned. -/
def createSessionParse (b : CreateBodyJson) : Except (List (String × String)) CreateValidated :=
  if createSessionIssues b = [] then
    match b.therapist_id, b.patient_id, b.date with
    | some (JVal.jint t), some (JVal.jint p), some (JVal.jstr d) => Except.ok ⟨t, p, d⟩
    | _, _, _ => Except.error (createSessionIssues b)
  else Except.error (createSessionIssues b)

/-- Body of an update-session request as received by request.json(). -/
structure PatchBodyJson where
  status : Option JVal
deriving DecidableEq

/-- updateSessionSchema.parse: status must be exactly the string Scheduled or
the string Completed (case-sensitive z.enum); anything else is a ZodError. -/
def updateSessionParse (b : PatchBodyJson) : Except (List (String × String)) Status :=
  match b.status with
  | some (JVal.jstr s) =>
    if s = "Scheduled" then Except.ok Status.Scheduled
    else if s = "Completed" then Except.ok Status.Completed
    else Except.error [("status", "Invalid enum value")]
  | none => Except.error [("status", "Required")]
  | some _ => Except.error [("status", "Expected string")]

/-! Timestamp conversion: new Date(isoString).getTime() for strings of the
zod datetime shape (used only when storing a validated create body). -/

/-- Days from 1970-01-01 to the given civil date, proleptic Gregorian
calendar (the standard days-from-civil computation, floor divisions). -/
def daysFromCivil (y m d : Int) : Int :=
  let y2 := if m ≤ 2 then y - 1 else y
  let era := Int.fdiv y2 400
  let yoe := y2 - era * 400
  let mp := if 2 < m then m - 3 else m + 9
  let doy := Int.fdiv (153 * mp + 2) 5 + d - 1
  let doe := yoe * 365 + Int.fdiv yoe 4 - Int.fdiv yoe 100 + doy
  era * 146097 + doe - 719468

/-- Epoch milliseconds of a zod-datetime string, as new Date(s).getTime()
yields for strings of that shape; 0 for any other string (the handler only
converts strings the schema has already accepted). -/
def jsDateMs (s : String) : Int :=
  match s.data with
  | y1 :: y2 :: y3 :: y4 :: '-' :: m1 :: m2 :: '-' :: d1 :: d2 :: 'T' ::
      h1 :: h2 :: ':' :: n1 :: n2 :: ':' :: p1 :: p2 :: rest =>
    let y : Int := decDigitsVal [y1, y2, y3, y4]
    let mo : Int := decDigitsVal [m1, m2]
    let dy : Int := decDigitsVal [d1, d2]
    let h : Int := decDigitsVal [h1, h2]
    let mi : Int := decDigitsVal [n1, n2]
    let sec : Int := decDigitsVal [p1, p2]
    let ms : Int :=
      match rest with
      | '.' :: fr => decDigitsVal ((fr.dropLast ++ ['0', '0', '0']).take 3)
      | _ => 0
    daysFromCivil y mo dy * 86400000 + h * 3600000 + mi * 60000 + sec * 1000 + ms
  | _ => 0

/-! The GET /api/sessions handler: left join plus orderBy date ascending. -/

/-- Join of one session row with the names of its referenced therapist and
patient: the select projection of GET /api/sessions. A left join finds at
most one matching row per primary-key id; no match leaves the name NULL. -/
def joinRow (db : DB) (s : Session) : SessionWithDetails :=
  { id := s.id
    date := s.date
    status := s.status
    therapist_id := s.therapist_id
    patient_id := s.patient_id
    therapist_name := (db.therapists.find? (fun t => (t.id : Int) == s.therapist_id)).map Therapist.name
    patient_name := (db.patients.find? (fun p => (p.id : Int) == s.patient_id)).map Patient.name }

/-- Ordering relation of orderBy(sessions.date): non-decreasing timestamps. -/
def byDateLe (a b : SessionWithDetails) : Prop := a.date ≤ b.date

instance : DecidableRel byDateLe := fun a b => inferInstanceAs (Decidable (a.date ≤ b.date))

instance : IsTotal SessionWithDetails byDateLe := ⟨fun a b => Int.le_total a.date b.date⟩

instance : IsTrans SessionWithDetails byDateLe := ⟨fun _ _ _ h h2 => le_trans h h2⟩

/-- GET /api/sessions: every session row joined with the referenced names,
ordered by appointment timestamp ascending (SQL ORDER BY fixes only the
ordering, so any sort realises it; insertion sort is used here). -/
def listSessionsWithDetails (db : DB) : List SessionWithDetails :=
  List.insertionSort byDateLe (db.sessions.map (joinRow db))

/-! The PATCH /api/sessions/[id] handler (the form with the positive-id guard
and the idempotent no-op branch). -/

/-- Responses of the PATCH handler, one constructor per NextResponse.json
site: the invalid-id-format 400, the ZodError 400 with its details, the 404,
the idempotent no-op 200 (whose body carries the id-and-status projection
the existence check selected), the updated 200 with the returned row, and
the catch-all 500. -/
inductive PatchResult where
  | invalidIdFormat
  | validationFailed (details : List (String × String))
  | notFound
  | alreadyStatus (id : Nat) (status : Status)
  | updated (session : Session)
  | serverError
deriving DecidableEq

/-- HTTP status code of each PATCH response. -/
def PatchResult.httpStatus : PatchResult → Nat
  | .invalidIdFormat => 400
  | .validationFailed _ => 400
  | .notFound => 404
  | .alreadyStatus _ _ => 200
  | .updated _ => 200
  | .serverError => 500

/-- Message field of the PATCH response body, where the handler sets one. -/
def PatchResult.message : PatchResult → Option String
  | .alreadyStatus _ _ => some "Session already has the requested status"
  | .updated _ => some "Session updated successfully"
  | _ => none

/-- Error field of the PATCH response body, where the handler sets one. -/
def PatchResult.errorText : PatchResult → Option String
  | .invalidIdFormat => some "Invalid session ID format"
  | .validationFailed _ => some "Validation failed"
  | .notFound => some "Session not found"
  | .serverError => some "Failed to update session"
  | _ => none

/-- Steps of PATCH /api/sessions/[id] after the id-format guard: read the
body (Except.error models request.json() throwing, reaching the outer catch
as a 500), validate it against updateSessionSchema, select the existing row
by id (limit 1), answer 404 when none, answer the idempotent no-op 200 when
the status already matches, else persist the new status and answer 200 with
the returned row. -/
def patchApply (db : DB) (sessionId : Int) (body : Except Unit PatchBodyJson) :
    PatchResult × DB :=
  match body with
  | Except.error _ => (PatchResult.serverError, db)
  | Except.ok b =>
    match updateSessionParse b with
    | Except.error ds => (PatchResult.validationFailed ds, db)
    | Except.ok newStatus =>
      match db.sessions.find? (fun s => (s.id : Int) == sessionId) with
      | none => (PatchResult.notFound, db)
      | some existing =>
        if existing.status = newStatus then
          (PatchResult.alreadyStatus existing.id existing.status, db)
        else
          let newSessions := db.sessions.map
            (fun s => if (s.id : Int) == sessionId then { s with status := newStatus } else s)
          match newSessions.find? (fun s => (s.id : Int) == sessionId) with
          | some u => (PatchResult.updated u, { db with sessions := newSessions })
          | none => (PatchResult.notFound, { db with sessions := newSessions })

/-- PATCH /api/sessions/[id]: parseInt the path id and reject NaN or a
non-positive value with the 400 invalid-id response before the body is even
read; otherwise continue with patchApply. -/
def PATCH (db : DB) (idStr : String) (body : Except Unit PatchBodyJson) :
    PatchResult × DB :=
  match parseIntJS idStr with
  | none => (PatchResult.invalidIdFormat, db)
  | some sessionId =>
    if sessionId ≤ 0 then (PatchResult.invalidIdFormat, db)
    else patchApply db sessionId body

/-! The POST /api/sessions handler (the form with the explicit existence
checks on both foreign ids). -/

/-- Responses of the POST handler, one constructor per NextResponse.json
site: the ZodError 400 with details, the two invalid-foreign-id 400s, the
201 with the re-selected joined row, and the catch-all 500. -/
inductive PostResult where
  | validationFailed (details : List (String × String))
  | invalidTherapist
  | invalidPatient
  | created (row : SessionWithDetails)
  | serverError
deriving DecidableEq

/-- HTTP status code of each POST response. -/
def PostResult.httpStatus : PostResult → Nat
  | .validationFailed _ => 400
  | .invalidTherapist => 400
  | .invalidPatient => 400
  | .created _ => 201
  | .serverError => 500

/-- Error field of the POST response body, where the handler sets one. -/
def PostResult.errorText : PostResult → Option String
  | .validationFailed _ => some "Validation failed"
  | .invalidTherapist => some "Invalid therapist ID"
  | .invalidPatient => some "Invalid patient ID"
  | .created _ => none
  | .serverError => some "Failed to create session"

/-- POST /api/sessions: read the body (Except.error models request.json()
throwing, a 500 via the catch), validate it against createSessionSchema,
check that the therapist id and then the patient id exist in their tables
(400 naming the invalid one when not), insert the new row with status forced
to Scheduled and the next serial id, then re-select the joined row by the
new id for the 201 body. -/
def POST (db : DB) (body : Except Unit CreateBodyJson) : PostResult × DB :=
  match body with
  | Except.error _ => (PostResult.serverError, db)
  | Except.ok b =>
    match createSessionParse b with
    | Except.error ds => (PostResult.validationFailed ds, db)
    | Except.ok v =>
      if (db.therapists.find? (fun t => (t.id : Int) == v.therapist_id)).isNone then
        (PostResult.invalidTherapist, db)
      else if (db.patients.find? (fun p => (p.id : Int) == v.patient_id)).isNone then
        (PostResult.invalidPatient, db)
      else
        let newSession : Session :=
          { id := db.nextSessionId
            therapist_id := v.therapist_id
            patient_id := v.patient_id
            date := jsDateMs v.date
            status := Status.Scheduled }
        let db2 : DB :=
          { db with sessions := db.sessions ++ [newSession]
                    nextSessionId := db.nextSessionId + 1 }
        match db2.sessions.find? (fun s => s.id == newSession.id) with
        | some row => (PostResult.created (joinRow db2 row), db2)
        | none => (PostResult.serverError, db2)

/-! The client reconciliation logic. -/

/-- Outcome of one apiCall as the caller observes it: success resolves with
parsed data; a network error, a non-ok HTTP status and a malformed response
body all throw. -/
inductive ApiOutcome where
  | success
  | networkError
  | httpError
  | malformedResponse
deriving DecidableEq

/-- Whether the apiCall outcome lands in the catch block. -/
def apiFailed : ApiOutcome → Bool
  | .success => false
  | _ => true

/-- Client state relevant to the reconciliation flow: the Home component
state (sessions, loading, error, successMessage) together with the
SessionTable local state updatingSessionId, a single number-or-null slot. -/
structure ClientState where
  sessions : List SessionWithDetails
  loading : Bool
  error : Option String
  successMessage : Option String
  updatingSessionId : Option Nat
deriving DecidableEq

/-- Map over the session list setting the status of the row with the given
id, the setSessions(prev.map(...)) pattern both Home handlers use; other
rows pass through unchanged. -/
def setStatus (l : List SessionWithDetails) (sessionId : Nat) (st : Status) :
    List SessionWithDetails :=
  l.map (fun s => if s.id == sessionId then { s with status := st } else s)

/-- Home.handleSessionUpdate: the optimistic mutation, setting the targeted
row to Completed and showing the transient success message. -/
def handleSessionUpdate (st : ClientState) (sessionId : Nat) : ClientState :=
  { st with sessions := setStatus st.sessions sessionId Status.Completed
            successMessage := some "Session marked as completed" }

/-- Home.handleSessionUpdateError: the rollback, setting the targeted row
back to the captured original status and showing the transient error. -/
def handleSessionUpdateError (st : ClientState) (sessionId : Nat)
    (originalStatus : Status) : ClientState :=
  { st with sessions := setStatus st.sessions sessionId originalStatus
            error := some "Failed to update session. Please try again." }

/-- Synchronous prefix of SessionTable.handleMarkCompleted: look the session
up in the list, capture originalStatus, set updatingSessionId to this row,
and apply the optimistic mutation; all of this happens before the PATCH
response arrives. Returns the captured status alongside the new state. -/
def handleMarkCompletedStart (st : ClientState) (sessionId : Nat) :
    ClientState × Option Status :=
  let originalStatus := (st.sessions.find? (fun s => s.id == sessionId)).map SessionWithDetails.status
  let st1 := { st with updatingSessionId := some sessionId }
  (handleSessionUpdate st1 sessionId, originalStatus)

/-- Continuation of SessionTable.handleMarkCompleted once the PATCH settles:
on success nothing further changes; on any failure the catch block reverts
to originalStatus when one was captured; the finally block always clears
updatingSessionId. -/
def handleMarkCompletedSettle (st : ClientState) (sessionId : Nat)
    (originalStatus : Option Status) (out : ApiOutcome) : ClientState :=
  let st1 :=
    if apiFailed out then
      match originalStatus with
      | some orig => handleSessionUpdateError st sessionId orig
      | none => st
    else st
  { st1 with updatingSessionId := none }

/-- One full run of handleMarkCompleted for a single row with no interleaved
events: the synchronous prefix followed by the settling of its apiCall. -/
def handleMarkCompletedRun (st : ClientState) (sessionId : Nat) (out : ApiOutcome) :
    ClientState :=
  let p := handleMarkCompletedStart st sessionId
  handleMarkCompletedSettle p.1 sessionId p.2 out

/-- Locally observed status of the row with the given id. -/
def clientStatusOf (st : ClientState) (sessionId : Nat) : Option Status :=
  (st.sessions.find? (fun s => s.id == sessionId)).map SessionWithDetails.status

/-- Pending indicator of one row: the spinner renders and the action button
is disabled exactly when updatingSessionId equals that row id. -/
def pendingIndicator (st : ClientState) (sessionId : Nat) : Bool :=
  st.updatingSessionId == some sessionId

/-- Body of the list-fetch response as fetchSessions inspects it: a JSON
array of rows, or any other JSON value (null, object, ...). -/
inductive FetchBody where
  | arrayBody (rows : List SessionWithDetails)
  | otherBody
deriving DecidableEq

/-- Outcome of the fetch in Home.fetchSessions. -/
inductive FetchOutcome where
  | networkError
  | httpNotOk
  | okJson (body : FetchBody)
deriving DecidableEq

/-- Home.fetchSessions as a state transformer over the observed outcome:
loading is set, error cleared; a non-ok response or a non-array body throws
into the catch, which records the error and leaves the session list alone;
only an array body replaces the list; finally clears loading. -/
def fetchSessions (st : ClientState) (res : FetchOutcome) : ClientState :=
  let st0 := { st with loading := true, error := none }
  let st1 :=
    match res with
    | .networkError => { st0 with error := some "Failed to fetch" }
    | .httpNotOk => { st0 with error := some "Failed to fetch sessions" }
    | .okJson (.arrayBody rows) => { st0 with sessions := rows }
    | .okJson .otherBody => { st0 with error := some "Invalid response format" }
  { st1 with loading := false }

/-- Render decision of Home: when error is set the dashboard body is
replaced by the error panel with the Try Again control. -/
def showsErrorPanel (st : ClientState) : Bool := st.error.isSome

/-- Strict ascent of a row list by appointment timestamp. -/
def strictlyAscendingByDate (l : List SessionWithDetails) : Prop :=
  List.Chain' (fun a b => a.date < b.date) l

/-! Helper lemmas about setStatus and find?. -/

/-- Finding the targeted row after setStatus: the row found before, with its
status field replaced. -/
theorem find?_setStatus_self (l : List SessionWithDetails) (sid : Nat) (x : Status) :
    (setStatus l sid x).find? (fun r => r.id == sid) =
      (l.find? (fun r => r.id == sid)).map (fun r => { r with status := x }) := by
  induction l with
  | nil => rfl
  | cons a t ih =>
    simp only [setStatus, List.map_cons] at ih ⊢
    cases hb : (a.id == sid) with
    | true => simp [List.find?_cons, hb]
    | false => simp only [List.find?_cons, hb, if_neg, Bool.false_eq_true, ite_false]; simpa [hb] using ih

/-- Finding a different row after setStatus: unchanged. -/
theorem find?_setStatus_ne (l : List SessionWithDetails) (sid other : Nat) (x : Status)
    (h : sid ≠ other) :
    (setStatus l sid x).find? (fun r => r.id == other) = l.find? (fun r => r.id == other) := by
  induction l with
  | nil => rfl
  | cons a t ih =>
    simp only [setStatus, List.map_cons] at ih ⊢
    cases hb : (a.id == other) with
    | true =>
      have hae : a.id = other := by simpa using hb
      have ha : (a.id == sid) = false := by
        rw [hae]
        exact beq_eq_false_iff_ne.mpr (Ne.symm h)
      simp [List.find?_cons, ha, hb]
    | false =>
      cases ha : (a.id == sid) with
      | true => simpa [List.find?_cons, ha, hb] using ih
      | false => simpa [List.find?_cons, ha, hb] using ih

/-- A nonempty zodNumberIntPositive issue list always carries an entry whose
field component is the checked field. -/
theorem zodNumberIntPositive_mem (f : String) (v : Option JVal)
    (h : zodNumberIntPositive f v ≠ []) :
    ∃ m, (f, m) ∈ zodNumberIntPositive f v := by
  cases v with
  | none => exact ⟨"Required", by simp [zodNumberIntPositive]⟩
  | some j =>
    cases j with
    | jint n =>
      by_cases hn : 0 < n
      · simp [zodNumberIntPositive, hn] at h
      · exact ⟨"Number must be greater than 0", by simp [zodNumberIntPositive, hn]⟩
    | jnum => exact ⟨"Expected integer, received float", by simp [zodNumberIntPositive]⟩
    | jstr s => exact ⟨"Expected number", by simp [zodNumberIntPositive]⟩
    | jother => exact ⟨"Expected number", by simp [zodNumberIntPositive]⟩

/-- A nonempty zodDatetime issue list always carries an entry whose field
component is the checked field. -/
theorem zodDatetime_mem (f : String) (v : Option JVal)
    (h : zodDatetime f v ≠ []) :
    ∃ m, (f, m) ∈ zodDatetime f v := by
  cases v with
  | none => exact ⟨"Required", by simp [zodDatetime]⟩
  | some j =>
    cases j with
    | jint n => exact ⟨"Expected string", by simp [zodDatetime]⟩
    | jnum => exact ⟨"Expected string", by simp [zodDatetime]⟩
    | jstr s =>
      by_cases hd : isZodDatetime s
      · simp [zodDatetime, hd] at h
      · exact ⟨"Invalid datetime", by simp [zodDatetime, hd]⟩
    | jother => exact ⟨"Expected string", by simp [zodDatetime]⟩

/-! Shared concrete data used by witnesses. -/

/-- Sample therapist row. -/
def wTherapist : Therapist := ⟨1, "Anna SLP", some "Speech Therapy"⟩

/-- Sample patient row. -/
def wPatient : Patient := ⟨1, "Ariel Underwood", some "2018-06-15"⟩

/-- Sample server store: one therapist, one patient, two scheduled sessions. -/
def wDB : DB :=
  ⟨[wTherapist], [wPatient],
   [⟨1, 1, 1, 100, Status.Scheduled⟩, ⟨12, 1, 1, 200, Status.Scheduled⟩], 13⟩

/-- Sample joined row with id 1. -/
def wSessionA : SessionWithDetails :=
  ⟨1, 100, Status.Scheduled, 1, 1, some "Anna SLP", some "Ariel Underwood"⟩

/-- Sample joined row with id 2. -/
def wSessionB : SessionWithDetails :=
  ⟨2, 200, Status.Scheduled, 1, 2, some "Anna SLP", some "Nemo Fisher"⟩

/-- Sample client state listing the two rows, nothing pending. -/
def wClientState : ClientState := ⟨[wSessionA, wSessionB], false, none, none, none⟩

/-- PATCH body carrying status Scheduled. -/
def wPatchScheduled : PatchBodyJson := ⟨some (JVal.jstr "Scheduled")⟩

/-- PATCH body carrying status Completed. -/
def wPatchCompleted : PatchBodyJson := ⟨some (JVal.jstr "Completed")⟩

/-! Claim theorems. -/

/-- C1: for a session listed with status Scheduled at the moment the user
triggers mark completed, if the PATCH fails (network error, non-ok HTTP
status or malformed response) after the optimistic mutation to Completed,
the locally observed status once the failure settles equals the captured
pre-mutation status Scheduled, not Completed. -/
theorem rollback_restores_original_status (st : ClientState) (sessionId : Nat)
    (s : SessionWithDetails) (out : ApiOutcome)
    (hfind : st.sessions.find? (fun r => r.id == sessionId) = some s)
    (hsch : s.status = Status.Scheduled)
    (hfail : apiFailed out = true) :
    clientStatusOf (handleMarkCompletedRun st sessionId out) sessionId = some Status.Scheduled ∧
    clientStatusOf (handleMarkCompletedRun st sessionId out) sessionId ≠ some Status.Completed := by
  have h2 : (handleMarkCompletedRun st sessionId out).sessions =
      setStatus (setStatus st.sessions sessionId Status.Completed) sessionId Status.Scheduled := by
    simp [handleMarkCompletedRun, handleMarkCompletedStart, handleMarkCompletedSettle,
      handleSessionUpdate, handleSessionUpdateError, hfind, hsch, hfail]
  have h3 : clientStatusOf (handleMarkCompletedRun st sessionId out) sessionId =
      some Status.Scheduled := by
    simp [clientStatusOf, h2, find?_setStatus_self, hfind]
  exact ⟨h3, by simp [h3]⟩

/-- C1 witness: a concrete two-row client state, rolling back row 1 after a
network error. -/
theorem rollback_restores_original_status_witness :
    clientStatusOf (handleMarkCompletedRun wClientState 1 ApiOutcome.networkError) 1 =
      some Status.Scheduled ∧
    clientStatusOf (handleMarkCompletedRun wClientState 1 ApiOutcome.networkError) 1 ≠
      some Status.Completed :=
  rollback_restores_original_status wClientState 1 wSessionA ApiOutcome.networkError
    (by decide) (by decide) (by decide)

/-- C2 counterexample: the pending indicator is one shared slot, not
per-row. With rows 1 and 2 both Scheduled, starting the update of row 2
shows the pending indicator of row 2, but then starting the update of row 1
while row 2 is still in flight turns the indicator of row 2 off, so
triggering an update for a different session does alter the pending
indicator of row 2 and two rows never show two independent indicators. -/
theorem pending_indicator_shared_slot_counterexample :
    pendingIndicator (handleMarkCompletedStart wClientState 2).1 2 = true ∧
    pendingIndicator
      (handleMarkCompletedStart (handleMarkCompletedStart wClientState 2).1 1).1 2 = false := by
  decide

/-- C2 amended: the stored status of a different row is never altered by
starting or settling an update of another row, but the pending indicator is
a single shared most-recently-started slot: while the update of a row is
pending, starting the update of a different row redirects the sole
indicator to the new row, so the other row loses its indicator instead of
keeping an independent one. -/
theorem row_status_isolated_but_indicator_shared (st : ClientState) (a b : Nat)
    (h : a ≠ b) (orig : Option Status) (out : ApiOutcome) :
    clientStatusOf (handleMarkCompletedStart st a).1 b = clientStatusOf st b ∧
    clientStatusOf (handleMarkCompletedSettle st a orig out) b = clientStatusOf st b ∧
    pendingIndicator (handleMarkCompletedStart st a).1 b = false := by
  refine ⟨?_, ?_, ?_⟩
  · simp [clientStatusOf, handleMarkCompletedStart, handleSessionUpdate,
      find?_setStatus_ne _ _ _ _ h]
  · cases out with
    | success => simp [clientStatusOf, handleMarkCompletedSettle, apiFailed]
    | networkError =>
      cases orig with
      | none => simp [clientStatusOf, handleMarkCompletedSettle, apiFailed]
      | some o =>
        simp [clientStatusOf, handleMarkCompletedSettle, apiFailed,
          handleSessionUpdateError, find?_setStatus_ne _ _ _ _ h]
    | httpError =>
      cases orig with
      | none => simp [clientStatusOf, handleMarkCompletedSettle, apiFailed]
      | some o =>
        simp [clientStatusOf, handleMarkCompletedSettle, apiFailed,
          handleSessionUpdateError, find?_setStatus_ne _ _ _ _ h]
    | malformedResponse =>
      cases orig with
      | none => simp [clientStatusOf, handleMarkCompletedSettle, apiFailed]
      | some o =>
        simp [clientStatusOf, handleMarkCompletedSettle, apiFailed,
          handleSessionUpdateError, find?_setStatus_ne _ _ _ _ h]
  · simp [pendingIndicator, handleMarkCompletedStart, handleSessionUpdate, h]

/-- C2 amended witness: rows 1 and 2 of the concrete state. -/
theorem row_status_isolated_but_indicator_shared_witness :
    clientStatusOf (handleMarkCompletedStart wClientState 1).1 2 =
      clientStatusOf wClientState 2 ∧
    clientStatusOf (handleMarkCompletedSettle wClientState 1
      (some Status.Scheduled) ApiOutcome.networkError) 2 = clientStatusOf wClientState 2 ∧
    pendingIndicator (handleMarkCompletedStart wClientState 1).1 2 = false :=
  row_status_isolated_but_indicator_shared wClientState 1 2 (by decide)
    (some Status.Scheduled) ApiOutcome.networkError

/-- C3: a PATCH carrying the status a stored session already has is a no-op
that still reports success: 200 with the message that no change was needed,
the store is left unchanged, and running the same request a second time
yields the same observable result as running it once. -/
theorem patch_same_status_noop_idempotent (db : DB) (idStr : String) (sid : Int)
    (b : PatchBodyJson) (s : Session) (x : Status)
    (hid : parseIntJS idStr = some sid) (hpos : 0 < sid)
    (hfind : db.sessions.find? (fun r => (r.id : Int) == sid) = some s)
    (hparse : updateSessionParse b = Except.ok x)
    (hstat : s.status = x) :
    PATCH db idStr (Except.ok b) = (PatchResult.alreadyStatus s.id s.status, db) ∧
    (PATCH db idStr (Except.ok b)).1.httpStatus = 200 ∧
    (PATCH db idStr (Except.ok b)).1.message = some "Session already has the requested status" ∧
    PATCH (PATCH db idStr (Except.ok b)).2 idStr (Except.ok b) = PATCH db idStr (Except.ok b) := by
  have key : PATCH db idStr (Except.ok b) = (PatchResult.alreadyStatus s.id s.status, db) := by
    simp only [PATCH, hid]
    rw [if_neg (by omega)]
    simp [patchApply, hparse, hfind, hstat]
  refine ⟨key, by rw [key]; rfl, by rw [key]; rfl, ?_⟩
  rw [key]
  exact key

/-- C3 witness: PATCH of session 1, already Scheduled, with status
Scheduled, against the concrete store. -/
theorem patch_same_status_noop_idempotent_witness :
    PATCH wDB "1" (Except.ok wPatchScheduled) =
      (PatchResult.alreadyStatus 1 Status.Scheduled, wDB) ∧
    (PATCH wDB "1" (Except.ok wPatchScheduled)).1.httpStatus = 200 ∧
    (PATCH wDB "1" (Except.ok wPatchScheduled)).1.message =
      some "Session already has the requested status" ∧
    PATCH (PATCH wDB "1" (Except.ok wPatchScheduled)).2 "1" (Except.ok wPatchScheduled) =
      PATCH wDB "1" (Except.ok wPatchScheduled) :=
  patch_same_status_noop_idempotent wDB "1" 1 wPatchScheduled
    ⟨1, 1, 1, 100, Status.Scheduled⟩ Status.Scheduled
    (by decide) (by decide) (by decide) (by rfl) (by rfl)

/-- C4: a schema-valid create request whose therapist id or patient id does
not exist in its table is answered 400 (neither 201 nor 500) with the
message naming the invalid id, and no session row is inserted. -/
theorem create_missing_foreign_id_rejected (db : DB) (b : CreateBodyJson)
    (v : CreateValidated)
    (hparse : createSessionParse b = Except.ok v)
    (hmiss : db.therapists.find? (fun t => (t.id : Int) == v.therapist_id) = none ∨
             db.patients.find? (fun p => (p.id : Int) == v.patient_id) = none) :
    (POST db (Except.ok b)).1.httpStatus = 400 ∧
    (POST db (Except.ok b)).1.httpStatus ≠ 201 ∧
    (POST db (Except.ok b)).1.httpStatus ≠ 500 ∧
    (POST db (Except.ok b)).2 = db ∧
    (db.therapists.find? (fun t => (t.id : Int) == v.therapist_id) = none →
      (POST db (Except.ok b)).1 = PostResult.invalidTherapist ∧
      (POST db (Except.ok b)).1.errorText = some "Invalid therapist ID") ∧
    (db.therapists.find? (fun t => (t.id : Int) == v.therapist_id) ≠ none →
      db.patients.find? (fun p => (p.id : Int) == v.patient_id) = none →
      (POST db (Except.ok b)).1 = PostResult.invalidPatient ∧
      (POST db (Except.ok b)).1.errorText = some "Invalid patient ID") := by
  cases hT : db.therapists.find? (fun t => (t.id : Int) == v.therapist_id) with
  | none =>
    have key : POST db (Except.ok b) = (PostResult.invalidTherapist, db) := by
      simp [POST, hparse, hT]
    rw [key]
    exact ⟨rfl, (by decide : (400 : Nat) ≠ 201), (by decide : (400 : Nat) ≠ 500), rfl,
      fun _ => ⟨rfl, rfl⟩, fun hc => absurd rfl hc⟩
  | some t =>
    have hp : db.patients.find? (fun p => (p.id : Int) == v.patient_id) = none := by
      rcases hmiss with hmt | hmp
      · rw [hT] at hmt; exact Option.noConfusion hmt
      · exact hmp
    have key : POST db (Except.ok b) = (PostResult.invalidPatient, db) := by
      simp [POST, hparse, hT, hp]
    rw [key]
    exact ⟨rfl, (by decide : (400 : Nat) ≠ 201), (by decide : (400 : Nat) ≠ 500), rfl,
      fun hc => Option.noConfusion hc, fun _ _ => ⟨rfl, rfl⟩⟩

/-- C4 witness: a body referencing therapist 7, absent from the concrete
store containing only therapist 1. -/
theorem create_missing_foreign_id_rejected_witness :
    (POST wDB (Except.ok ⟨some (JVal.jint 7), some (JVal.jint 1),
        some (JVal.jstr "2030-01-01T10:00:00Z"), none⟩)).1.httpStatus = 400 ∧
    (POST wDB (Except.ok ⟨some (JVal.jint 7), some (JVal.jint 1),
        some (JVal.jstr "2030-01-01T10:00:00Z"), none⟩)).1.httpStatus ≠ 201 ∧
    (POST wDB (Except.ok ⟨some (JVal.jint 7), some (JVal.jint 1),
        some (JVal.jstr "2030-01-01T10:00:00Z"), none⟩)).1.httpStatus ≠ 500 ∧
    (POST wDB (Except.ok ⟨some (JVal.jint 7), some (JVal.jint 1),
        some (JVal.jstr "2030-01-01T10:00:00Z"), none⟩)).2 = wDB ∧
    (wDB.therapists.find? (fun t => (t.id : Int) == (7 : Int)) = none →
      (POST wDB (Except.ok ⟨some (JVal.jint 7), some (JVal.jint 1),
          some (JVal.jstr "2030-01-01T10:00:00Z"), none⟩)).1 = PostResult.invalidTherapist ∧
      (POST wDB (Except.ok ⟨some (JVal.jint 7), some (JVal.jint 1),
          some (JVal.jstr "2030-01-01T10:00:00Z"), none⟩)).1.errorText =
        some "Invalid therapist ID") ∧
    (wDB.therapists.find? (fun t => (t.id : Int) == (7 : Int)) ≠ none →
      wDB.patients.find? (fun p => (p.id : Int) == (1 : Int)) = none →
      (POST wDB (Except.ok ⟨some (JVal.jint 7), some (JVal.jint 1),
          some (JVal.jstr "2030-01-01T10:00:00Z"), none⟩)).1 = PostResult.invalidPatient ∧
      (POST wDB (Except.ok ⟨some (JVal.jint 7), some (JVal.jint 1),
          some (JVal.jstr "2030-01-01T10:00:00Z"), none⟩)).1.errorText =
        some "Invalid patient ID") :=
  create_missing_foreign_id_rejected wDB
    ⟨some (JVal.jint 7), some (JVal.jint 1), some (JVal.jstr "2030-01-01T10:00:00Z"), none⟩
    ⟨7, 1, "2030-01-01T10:00:00Z"⟩ (by rfl) (Or.inl (by decide))

/-- C5: a create request with any combination of missing or invalid fields
among therapist_id, patient_id and date is answered 400 whose details list
carries an entry for every failing field, not just the first one
encountered; the store is unchanged. -/
theorem create_validation_reports_every_failing_field (db : DB) (b : CreateBodyJson)
    (h : createSessionIssues b ≠ []) :
    (POST db (Except.ok b)).1 = PostResult.validationFailed (createSessionIssues b) ∧
    (POST db (Except.ok b)).1.httpStatus = 400 ∧
    (POST db (Except.ok b)).2 = db ∧
    (zodNumberIntPositive "therapist_id" b.therapist_id ≠ [] →
      ∃ m, ("therapist_id", m) ∈ createSessionIssues b) ∧
    (zodNumberIntPositive "patient_id" b.patient_id ≠ [] →
      ∃ m, ("patient_id", m) ∈ createSessionIssues b) ∧
    (zodDatetime "date" b.date ≠ [] →
      ∃ m, ("date", m) ∈ createSessionIssues b) := by
  have key : POST db (Except.ok b) = (PostResult.validationFailed (createSessionIssues b), db) := by
    simp [POST, createSessionParse, h]
  refine ⟨by rw [key], by rw [key]; rfl, by rw [key], ?_, ?_, ?_⟩
  · intro hf
    obtain ⟨m, hm⟩ := zodNumberIntPositive_mem _ _ hf
    exact ⟨m, List.mem_append_left _ (List.mem_append_left _ hm)⟩
  · intro hf
    obtain ⟨m, hm⟩ := zodNumberIntPositive_mem _ _ hf
    exact ⟨m, List.mem_append_left _ (List.mem_append_right _ hm)⟩
  · intro hf
    obtain ⟨m, hm⟩ := zodDatetime_mem _ _ hf
    exact ⟨m, List.mem_append_right _ hm⟩

/-- C5 witness: a body missing all three fields yields one entry per field. -/
theorem create_validation_reports_every_failing_field_witness :
    (POST wDB (Except.ok ⟨none, none, none, none⟩)).1 =
      PostResult.validationFailed (createSessionIssues ⟨none, none, none, none⟩) ∧
    (POST wDB (Except.ok ⟨none, none, none, none⟩)).1.httpStatus = 400 ∧
    (POST wDB (Except.ok ⟨none, none, none, none⟩)).2 = wDB ∧
    (zodNumberIntPositive "therapist_id" none ≠ [] →
      ∃ m, ("therapist_id", m) ∈ createSessionIssues ⟨none, none, none, none⟩) ∧
    (zodNumberIntPositive "patient_id" none ≠ [] →
      ∃ m, ("patient_id", m) ∈ createSessionIssues ⟨none, none, none, none⟩) ∧
    (zodDatetime "date" none ≠ [] →
      ∃ m, ("date", m) ∈ createSessionIssues ⟨none, none, none, none⟩) :=
  create_validation_reports_every_failing_field wDB ⟨none, none, none, none⟩ (by decide)

/-- Store with one session whose id is 12, used by the C6 counterexample. -/
def dbPrefix : DB := ⟨[], [], [⟨12, 1, 1, 200, Status.Scheduled⟩], 13⟩

/-- C6 counterexample: the path id "12abc" has a numeric prefix, so it is
not an input on which the invalid-id rule fires: parseInt yields 12, the
guard passes, and the handler goes on to update session 12 and answer 200,
instead of responding 400 with the invalid-session-id error. -/
theorem patch_numeric_prefix_id_not_rejected :
    (PATCH dbPrefix "12abc" (Except.ok wPatchCompleted)).1 ≠ PatchResult.invalidIdFormat ∧
    (PATCH dbPrefix "12abc" (Except.ok wPatchCompleted)).1.httpStatus = 200 ∧
    (PATCH dbPrefix "12abc" (Except.ok wPatchCompleted)).2 ≠ dbPrefix := by
  decide

/-- C6 amended: a path id whose parseInt value is NaN or not positive (for
example "0", "-3" or "abc") is answered 400 with the invalid-session-id
error before the request body is read (the response is the same whatever
the body, even an unreadable one); a string with a numeric prefix such as
"12abc" parses to its prefix and is not rejected by this rule. -/
theorem patch_invalid_id_rejected_before_body (db : DB) (idStr : String)
    (body : Except Unit PatchBodyJson)
    (h : parseIntJS idStr = none ∨ ∃ n, parseIntJS idStr = some n ∧ n ≤ 0) :
    PATCH db idStr body = (PatchResult.invalidIdFormat, db) ∧
    (PATCH db idStr body).1.httpStatus = 400 ∧
    (PATCH db idStr body).1.errorText = some "Invalid session ID format" := by
  have key : PATCH db idStr body = (PatchResult.invalidIdFormat, db) := by
    rcases h with h | ⟨n, h, hn⟩
    · simp [PATCH, h]
    · simp [PATCH, h, hn]
  exact ⟨key, by rw [key]; rfl, by rw [key]; rfl⟩

/-- C6 amended witness: the path id "0" with an unreadable body is still
rejected with the 400 invalid-id response. -/
theorem patch_invalid_id_rejected_before_body_witness :
    PATCH wDB "0" (Except.error ()) = (PatchResult.invalidIdFormat, wDB) ∧
    (PATCH wDB "0" (Except.error ())).1.httpStatus = 400 ∧
    (PATCH wDB "0" (Except.error ())).1.errorText = some "Invalid session ID format" :=
  patch_invalid_id_rejected_before_body wDB "0" (Except.error ())
    (Or.inr ⟨0, by decide, by decide⟩)

/-- C7: a schema-valid create request whose two foreign ids exist is
answered 201; the inserted row and the response row carry status Scheduled
whatever status value the client also sent (the response of the handler
does not depend on that extra key at all), and the response row carries the
server-assigned id. The freshness hypothesis states that the serial
sequence value is not already used, which holds of every store the serial
discipline can produce. -/
theorem create_valid_forces_scheduled (db : DB) (b : CreateBodyJson) (v : CreateValidated)
    (hparse : createSessionParse b = Except.ok v)
    (ht : (db.therapists.find? (fun t => (t.id : Int) == v.therapist_id)).isNone = false)
    (hp : (db.patients.find? (fun p => (p.id : Int) == v.patient_id)).isNone = false)
    (hfresh : ∀ s ∈ db.sessions, s.id ≠ db.nextSessionId) :
    ∃ row : SessionWithDetails,
      (POST db (Except.ok b)).1 = PostResult.created row ∧
      row.status = Status.Scheduled ∧
      row.id = db.nextSessionId ∧
      (POST db (Except.ok b)).1.httpStatus = 201 ∧
      (POST db (Except.ok b)).2.sessions = db.sessions ++
        [⟨db.nextSessionId, v.therapist_id, v.patient_id, jsDateMs v.date, Status.Scheduled⟩] ∧
      (∀ cs : Option JVal, POST db (Except.ok { b with status := cs }) = POST db (Except.ok b)) := by
  have hnone : db.sessions.find? (fun s => s.id == db.nextSessionId) = none :=
    List.find?_eq_none.mpr (fun x hx => by simpa using hfresh x hx)
  have key : POST db (Except.ok b) =
      (PostResult.created (joinRow
        ⟨db.therapists, db.patients,
         db.sessions ++ [⟨db.nextSessionId, v.therapist_id, v.patient_id, jsDateMs v.date,
           Status.Scheduled⟩], db.nextSessionId + 1⟩
        ⟨db.nextSessionId, v.therapist_id, v.patient_id, jsDateMs v.date, Status.Scheduled⟩),
       ⟨db.therapists, db.patients,
        db.sessions ++ [⟨db.nextSessionId, v.therapist_id, v.patient_id, jsDateMs v.date,
          Status.Scheduled⟩], db.nextSessionId + 1⟩) := by
    simp only [POST, hparse, ht, hp, Bool.false_eq_true, if_false]
    rw [List.find?_append, hnone]
    simp [List.find?]
  refine ⟨joinRow
      ⟨db.therapists, db.patients,
       db.sessions ++ [⟨db.nextSessionId, v.therapist_id, v.patient_id, jsDateMs v.date,
         Status.Scheduled⟩], db.nextSessionId + 1⟩
      ⟨db.nextSessionId, v.therapist_id, v.patient_id, jsDateMs v.date, Status.Scheduled⟩,
    by rw [key], rfl, rfl, by rw [key]; rfl, by rw [key], fun cs => rfl⟩

/-- C7 witness: the spec scenario, POST with therapist 1, patient 1 and date
2030-01-01T10:00:00Z against the seeded concrete store. -/
theorem create_valid_forces_scheduled_witness :
    ∃ row : SessionWithDetails,
      (POST wDB (Except.ok ⟨some (JVal.jint 1), some (JVal.jint 1),
        some (JVal.jstr "2030-01-01T10:00:00Z"), none⟩)).1 = PostResult.created row ∧
      row.status = Status.Scheduled ∧
      row.id = wDB.nextSessionId ∧
      (POST wDB (Except.ok ⟨some (JVal.jint 1), some (JVal.jint 1),
        some (JVal.jstr "2030-01-01T10:00:00Z"), none⟩)).1.httpStatus = 201 ∧
      (POST wDB (Except.ok ⟨some (JVal.jint 1), some (JVal.jint 1),
        some (JVal.jstr "2030-01-01T10:00:00Z"), none⟩)).2.sessions = wDB.sessions ++
        [⟨wDB.nextSessionId, 1, 1, jsDateMs "2030-01-01T10:00:00Z", Status.Scheduled⟩] ∧
      (∀ cs : Option JVal,
        POST wDB (Except.ok ⟨some (JVal.jint 1), some (JVal.jint 1),
          some (JVal.jstr "2030-01-01T10:00:00Z"), cs⟩) =
        POST wDB (Except.ok ⟨some (JVal.jint 1), some (JVal.jint 1),
          some (JVal.jstr "2030-01-01T10:00:00Z"), none⟩)) :=
  create_valid_forces_scheduled wDB
    ⟨some (JVal.jint 1), some (JVal.jint 1), some (JVal.jstr "2030-01-01T10:00:00Z"), none⟩
    ⟨1, 1, "2030-01-01T10:00:00Z"⟩ (by rfl) (by decide) (by decide) (by decide)

/-- Store with two sessions sharing one timestamp, used by the C8
counterexample. -/
def dbDup : DB := ⟨[], [], [⟨1, 1, 1, 500, Status.Scheduled⟩, ⟨2, 1, 1, 500, Status.Scheduled⟩], 3⟩

/-- C8 counterexample: a store may hold two sessions with equal timestamps
(nothing forbids it), and then the returned list is not strictly ascending
by timestamp, only non-decreasing. -/
theorem list_sessions_not_always_strictly_ascending :
    (listSessionsWithDetails dbDup).map SessionWithDetails.date = [500, 500] ∧
    ¬ strictlyAscendingByDate (listSessionsWithDetails dbDup) := by
  refine ⟨by decide, fun h => ?_⟩
  have he : listSessionsWithDetails dbDup =
      [⟨1, 500, Status.Scheduled, 1, 1, none, none⟩,
       ⟨2, 500, Status.Scheduled, 1, 1, none, none⟩] := by decide
  rw [he] at h
  simp [strictlyAscendingByDate, List.chain'_cons, List.chain'_singleton] at h

/-- C8 amended: for every store the session list is a permutation of the
joined rows sorted non-decreasingly by appointment timestamp, independent of
insertion order, and it is strictly ascending whenever the stored
timestamps are pairwise distinct (as in the spec example). -/
theorem list_sessions_sorted_by_date (db : DB) :
    List.Sorted byDateLe (listSessionsWithDetails db) ∧
    (listSessionsWithDetails db).Perm (db.sessions.map (joinRow db)) ∧
    (db.sessions.Pairwise (fun a b => a.date ≠ b.date) →
      strictlyAscendingByDate (listSessionsWithDetails db)) := by
  have hsorted : List.Sorted byDateLe (listSessionsWithDetails db) :=
    List.sorted_insertionSort byDateLe (db.sessions.map (joinRow db))
  have hperm : (listSessionsWithDetails db).Perm (db.sessions.map (joinRow db)) :=
    List.perm_insertionSort byDateLe (db.sessions.map (joinRow db))
  refine ⟨hsorted, hperm, fun hne => ?_⟩
  have hne2 : List.Pairwise (fun a b : SessionWithDetails => a.date ≠ b.date)
      (db.sessions.map (joinRow db)) := by
    rw [List.pairwise_map]
    exact hne
  have hne3 : List.Pairwise (fun a b : SessionWithDetails => a.date ≠ b.date)
      (listSessionsWithDetails db) :=
    (List.Perm.pairwise_iff (fun hxy => hxy.symm) hperm).mpr hne2
  have hlt : List.Pairwise (fun a b : SessionWithDetails => a.date < b.date)
      (listSessionsWithDetails db) :=
    (hsorted.and hne3).imp (fun hab => lt_of_le_of_ne hab.1 hab.2)
  exact hlt.chain'

/-- Store holding the three sessions of the spec ordering example, inserted
out of timestamp order. -/
def dbOrder : DB :=
  ⟨[], [], [⟨1, 1, 1, 540, Status.Scheduled⟩, ⟨2, 1, 1, 2100, Status.Scheduled⟩,
   ⟨3, 1, 1, 780, Status.Scheduled⟩], 4⟩

/-- C8 amended witness: the spec example store (timestamps 540, 2100, 780 in
insertion order) comes back strictly ascending, 540 then 780 then 2100. -/
theorem list_sessions_sorted_by_date_witness :
    strictlyAscendingByDate (listSessionsWithDetails dbOrder) ∧
    (listSessionsWithDetails dbOrder).map SessionWithDetails.date = [540, 780, 2100] :=
  ⟨(list_sessions_sorted_by_date dbOrder).2.2 (by decide), by decide⟩

/-- Store with a session whose therapist id 99 matches no therapist row,
used by the C9 theorems. -/
def dbDangling : DB :=
  ⟨[], [⟨1, "Ariel Underwood", none⟩], [⟨1, 99, 1, 100, Status.Scheduled⟩], 2⟩

/-- C9 counterexample: the session referencing the missing therapist 99 is
still listed (one row comes back), but its therapist name column is NULL
(none), not the empty string the claim states. -/
theorem list_sessions_missing_reference_name_is_null :
    (listSessionsWithDetails dbDangling).map SessionWithDetails.therapist_name = [none] ∧
    (listSessionsWithDetails dbDangling).length = 1 ∧
    (none : Option String) ≠ some "" := by
  decide

/-- C9 amended: every stored session appears in the list (a row with a
dangling reference is not omitted), and when the referenced therapist or
patient row is missing the corresponding name field of the returned row is
null (none), not an empty string. -/
theorem list_sessions_keeps_unmatched_rows (db : DB) (s : Session)
    (hs : s ∈ db.sessions) :
    joinRow db s ∈ listSessionsWithDetails db ∧
    (joinRow db s).id = s.id ∧
    (db.therapists.find? (fun t => (t.id : Int) == s.therapist_id) = none →
      (joinRow db s).therapist_name = none) ∧
    (db.patients.find? (fun p => (p.id : Int) == s.patient_id) = none →
      (joinRow db s).patient_name = none) := by
  refine ⟨?_, rfl, fun h => by simp [joinRow, h], fun h => by simp [joinRow, h]⟩
  have hmem : joinRow db s ∈ db.sessions.map (joinRow db) :=
    List.mem_map.mpr ⟨s, hs, rfl⟩
  exact (List.perm_insertionSort byDateLe (db.sessions.map (joinRow db))).mem_iff.mpr hmem

/-- C9 amended witness: the dangling-reference store; the lone session is
listed and its therapist name is null. -/
theorem list_sessions_keeps_unmatched_rows_witness :
    joinRow dbDangling ⟨1, 99, 1, 100, Status.Scheduled⟩ ∈ listSessionsWithDetails dbDangling ∧
    (joinRow dbDangling ⟨1, 99, 1, 100, Status.Scheduled⟩).id = 1 ∧
    (dbDangling.therapists.find? (fun t => (t.id : Int) == (99 : Int)) = none →
      (joinRow dbDangling ⟨1, 99, 1, 100, Status.Scheduled⟩).therapist_name = none) ∧
    (dbDangling.patients.find? (fun p => (p.id : Int) == (1 : Int)) = none →
      (joinRow dbDangling ⟨1, 99, 1, 100, Status.Scheduled⟩).patient_name = none) :=
  list_sessions_keeps_unmatched_rows dbDangling ⟨1, 99, 1, 100, Status.Scheduled⟩ (by decide)

/-- C10: a successful list fetch whose JSON body is not an array is treated
as a failure: the in-memory session list is left unchanged, the error state
is set, and the error panel with the retry control is shown instead of the
malformed payload being rendered. -/
theorem fetch_malformed_body_keeps_sessions_and_shows_error (st : ClientState) :
    (fetchSessions st (FetchOutcome.okJson FetchBody.otherBody)).sessions = st.sessions ∧
    (fetchSessions st (FetchOutcome.okJson FetchBody.otherBody)).error =
      some "Invalid response format" ∧
    showsErrorPanel (fetchSessions st (FetchOutcome.okJson FetchBody.otherBody)) = true :=
  ⟨rfl, rfl, rfl⟩

end Origin
